import Mathlib

/-!
Verification of `robosat/tools/download.py` (the concurrent, rate-limited,
resumable tile fetcher) against its natural-language specification.

The worker (lines 53-94 of download.py) and the orchestrator loop
(lines 96-103) are embedded shallowly.  External collaborators that are not
part of the source tree (`fetch_image` and `tile_to_bbox` from
`robosat.tiles`, the PIL decode and re-encode step, the filesystem and the
monotonic clock) are abstracted into an `Oracle` record supplying their
answers for one tile task; every state change the worker performs on the
outside world (directory creation, HTTP requests, sleeps, progress-bar
updates, file writes) is collected in an `Effects` record.
-/

namespace Robosat

/-- Slippy-map tile coordinate (`mercantile.Tile`): `x` and `y` are Python
integers, `z` is the zoom level (nonnegative in slippy-map data). -/
structure Tile where
  x : Int
  y : Int
  z : Nat
deriving DecidableEq, Inhabited

/-- The command-line configuration consumed by `worker` and `main`
(download.py lines 21-31): the URL template, the output extension, the
service type string (`args.type`), the rate, and the output directory. -/
structure Args where
  url : String
  ext : String
  type' : String
  rate : Nat
  out : String

/-- Substitution of the three placeholders of an XYZ or TMS URL template,
embedding Python `template.format(x=..., y=..., z=...)` as used on lines 65
and 67 of download.py.  Integer renderings never contain braces, so the
left-to-right scan agrees with Python's simultaneous substitution. -/
def substFormat (x y z : String) : List Char → List Char
  | [] => []
  | '{' :: 'x' :: '}' :: rest => x.data ++ substFormat x y z rest
  | '{' :: 'y' :: '}' :: rest => y.data ++ substFormat x y z rest
  | '{' :: 'z' :: '}' :: rest => z.data ++ substFormat x y z rest
  | c :: rest => c :: substFormat x y z rest

/-- `template.format` specialised to tile coordinates. -/
def formatXYZ (template : String) (x y : Int) (z : Nat) : String :=
  String.mk (substFormat (toString x) (toString y) (toString z) template.data)

/-- Lines 66-67 of download.py, the TMS branch of the worker:
`tile.y = (2 ** tile.z) - tile.y - 1` reassigns the tile's `y` coordinate in
place and the URL is then formatted from the updated coordinates.  The
result is the URL together with the tile value after the assignment (in
Python the very same object, now mutated). -/
def resolveTMS (template : String) (tile : Tile) : String × Tile :=
  let t : Tile := { tile with y := (2 : Int) ^ tile.z - tile.y - 1 }
  (formatXYZ template t.x t.y t.z, t)

/-- Answers of the collaborators outside src/ for one tile task.
Modelled from the spec: `fetch_image` (robosat.tiles, not in src) performs
the HTTP GET and yields a payload, `none` standing for a transport failure
or non-success response; the PIL `Image.open` and `Image.save` pair (the
ImageStore.save contract of the spec) decodes and re-encodes a payload,
`decodeOk p = false` standing for a DecodeFailure, and per the spec the
write to the output path commits only after a successful decode;
`tile_to_bbox` composed with the WMS template substitution is abstracted as
`wmsUrl`.  `isfile` is the filesystem state seen by this task's existence
check; `tEntry`, `tGet` and `tEnd` are the monotonic-clock times at which
the task entered the worker, issued its GET, and finished saving — the code
reads the clock exactly at entry (line 54, `tick`) and after the save
(line 85, `tock`). -/
structure Oracle where
  isfile : String → Bool
  fetch : String → Option Nat
  decodeOk : Nat → Bool
  wmsUrl : Tile → String
  tEntry : ℚ
  tGet : ℚ
  tEnd : ℚ

/-- Outward state changes performed by one worker call: directories created
(line 58), URLs requested over the network (line 74), sleeps executed
(line 90), files written (line 79), and progress-bar updates (line 92). -/
structure Effects where
  dirs : List String
  requests : List String
  sleeps : List ℚ
  writes : List String
  progress : Nat
deriving DecidableEq

/-- The worker's return triple `(tile, url, ok)`; `url = none` is Python's
`None`. -/
structure Outcome where
  tile : Tile
  url : Option String
  ok : Bool
deriving DecidableEq

/-- `os.path.join(args.out, z, x, "…".format(y, args.ext))`, lines 56-59:
the on-disk path `out/z/x/y.ext`, rendered from the original coordinates. -/
def pathOf (a : Args) (t : Tile) : String :=
  a.out ++ "/" ++ toString t.z ++ "/" ++ toString t.x ++ "/" ++ toString t.y ++ "." ++ a.ext

/-- The directory `out/z/x` created by the worker on line 58. -/
def dirOf (a : Args) (t : Tile) : String :=
  a.out ++ "/" ++ toString t.z ++ "/" ++ toString t.x

/-- The service-type dispatch of lines 63-72: `none` is the
`return tile, None, False` of the unknown-type branch; otherwise the tile
value after the branch (mutated by the TMS branch) together with the
resolved URL. -/
def serviceResolve (a : Args) (o : Oracle) (tile : Tile) : Option (Tile × String) :=
  if a.type' = "XYZ" then some (tile, formatXYZ a.url tile.x tile.y tile.z)
  else if a.type' = "TMS" then some ((resolveTMS a.url tile).2, (resolveTMS a.url tile).1)
  else if a.type' = "WMS" then some (tile, o.wmsUrl tile)
  else none

/-- The worker of download.py lines 53-94, one tile task:
create `out/z/x`; if the output path already exists return
`(tile, None, True)`; resolve the URL per service type (unknown type:
`(tile, None, False)`); fetch (`not res`: `(tile, url, False)`); decode and
save (OSError: `(tile, url, False)`); then pace — with
`time_for_req = tock - tick` measured from worker entry and
`time_per_worker = num_workers / args.rate` — sleep the difference when the
task was faster, update the progress bar, and return `(tile, url, True)`. -/
def worker (a : Args) (numWorkers : Nat) (o : Oracle) (tile : Tile) : Outcome × Effects :=
  if o.isfile (pathOf a tile) then
    (⟨tile, none, true⟩, ⟨[dirOf a tile], [], [], [], 0⟩)
  else
    match serviceResolve a o tile with
    | none => (⟨tile, none, false⟩, ⟨[dirOf a tile], [], [], [], 0⟩)
    | some (t, url) =>
      match o.fetch url with
      | none => (⟨t, some url, false⟩, ⟨[dirOf a tile], [url], [], [], 0⟩)
      | some payload =>
        if o.decodeOk payload then
          (⟨t, some url, true⟩,
           ⟨[dirOf a tile], [url],
            if o.tEnd - o.tEntry < (numWorkers : ℚ) / (a.rate : ℚ) then
              [(numWorkers : ℚ) / (a.rate : ℚ) - (o.tEnd - o.tEntry)]
            else [],
            [pathOf a tile], 1⟩)
        else
          (⟨t, some url, false⟩, ⟨[dirOf a tile], [url], [], [], 0⟩)

/-- Python truthiness of the `url` slot of an outcome: `not url` on line 97
is true for `None` and for the empty string. -/
def pyFalsy : Option String → Bool
  | none => true
  | some s => s.isEmpty

/-- One iteration of the aggregation loop, lines 96-100: count the outcome
as already downloaded when `not url and ok`, append a warning entry
(tile and attempted URL) when `not ok`. -/
def aggStep (acc : Nat × List (Tile × Option String)) (oc : Outcome) :
    Nat × List (Tile × Option String) :=
  ((if pyFalsy oc.url && oc.ok then acc.1 + 1 else acc.1),
   (if !oc.ok then acc.2 ++ [(oc.tile, oc.url)] else acc.2))

/-- The aggregation loop of lines 96-100 over the outcomes in the order the
orchestrator consumes them: the final `already_dl` count and the warning
log entries in emission order. -/
def aggregate (outs : List Outcome) : Nat × List (Tile × Option String) :=
  outs.foldl aggStep (0, [])

/-- Lines 102-103: the final Notice summary is emitted only under
`if already_dl:`, i.e. only when the count is nonzero. -/
def noticeLines (already : Nat) : List String :=
  if already != 0 then
    ["Notice:\n " ++ toString already ++ " tiles already downloads previously, so skipped now."]
  else []

/-- The whole batch: every tile is run through the worker; `oT` gives each
task its view of the collaborators (its own clock times, the shared
filesystem and network). -/
def runAll (a : Args) (numWorkers : Nat) (oT : Tile → Oracle) (tiles : List Tile) :
    List (Outcome × Effects) :=
  tiles.map (fun t => worker a numWorkers (oT t) t)

/-- Line 42 and the surrounding run: `os.makedirs(args.out, exist_ok=True)`
is executed outside any try block, so its failure aborts the whole run;
otherwise every tile yields an outcome. -/
def mainRun (mkdirOk : Bool) (a : Args) (numWorkers : Nat) (oT : Tile → Oracle)
    (tiles : List Tile) : Except String (List (Outcome × Effects)) :=
  if mkdirOk then .ok (runAll a numWorkers oT tiles) else .error "DirectoryCreationFailure"

/-- Whether the process exits successfully. -/
def runSucceeds (mkdirOk : Bool) (a : Args) (numWorkers : Nat) (oT : Tile → Oracle)
    (tiles : List Tile) : Bool :=
  match mainRun mkdirOk a numWorkers oT tiles with
  | .ok _ => true
  | .error _ => false

/-! ### Concrete configurations used to evaluate the model -/

/-- A URL template carrying the three tile placeholders. -/
def tpl : String := "{z}/{x}/{y}"

/-- An XYZ configuration with the default extension and rate 1. -/
def argsXYZ : Args := { url := tpl, ext := "webp", type' := "XYZ", rate := 1, out := "out" }

/-- A configuration whose service type is none of XYZ, TMS, WMS. -/
def argsBad : Args := { argsXYZ with type' := "BAD" }

/-- A configuration whose URL template is the empty string. -/
def argsEmptyUrl : Args := { argsXYZ with url := "" }

/-- A fresh-directory world: no file present, every fetch succeeds, every
payload decodes, the task finishes instantaneously. -/
def oracleFresh : Oracle :=
  { isfile := fun _ => false, fetch := fun _ => some 0, decodeOk := fun _ => true,
    wmsUrl := fun _ => "", tEntry := 0, tGet := 0, tEnd := 0 }

/-- A world in which every tile's output file already exists. -/
def oraclePresent : Oracle := { oracleFresh with isfile := fun _ => true }

/-- A world in which every fetch fails (server down). -/
def oracleDown : Oracle := { oracleFresh with fetch := fun _ => none }

/-- A world in which every payload fails to decode. -/
def oracleBadImage : Oracle := { oracleFresh with decodeOk := fun _ => false }

/-- A world where the worker entered at time 0, the GET went out at
time 1/2, and the task finished at time 6/5: measured from the GET the
task took 7/10 s (under the 1 s interval), measured from worker entry it
took 6/5 s (over it). -/
def oracleSlow : Oracle := { oracleFresh with tGet := 1/2, tEnd := 6/5 }

/-- A small sample tile. -/
def tile0 : Tile := ⟨1, 2, 3⟩

/-! ### Characterisation of the aggregation loop -/

theorem aggregate_foldl (outs : List Outcome) (acc : Nat × List (Tile × Option String)) :
    outs.foldl aggStep acc
      = (acc.1 + outs.countP (fun oc => pyFalsy oc.url && oc.ok),
         acc.2 ++ (outs.filter (fun oc => !oc.ok)).map (fun oc => (oc.tile, oc.url))) := by
  induction outs generalizing acc with
  | nil => simp
  | cons oc rest ih =>
    rw [List.foldl_cons, ih]
    simp only [aggStep, List.countP_cons, List.filter_cons]
    cases hp : pyFalsy oc.url && oc.ok <;> cases hq : !oc.ok <;>
      simp [hp, hq, Prod.ext_iff] <;> omega

/-- The loop of lines 96-100 computes: the number of outcomes with a falsy
URL and a true flag, and the warning entries of the not-ok outcomes in
order. -/
theorem aggregate_spec (outs : List Outcome) :
    aggregate outs
      = (outs.countP (fun oc => pyFalsy oc.url && oc.ok),
         (outs.filter (fun oc => !oc.ok)).map (fun oc => (oc.tile, oc.url))) := by
  simpa [aggregate] using aggregate_foldl outs (0, [])

/-! ### The claims -/

/-- C1: the claim states that TMS URL resolution is a pure function of the
input tile — resolving the same tile twice yields the same URL both times
and leaves the original tile value unchanged.  The code (download.py
line 66) instead reassigns `tile.y` in place: at tile (x=0, y=0, z=1) with
template `tpl`, the first resolution yields URL "1/0/1" and leaves the tile
with y = 1, and resolving the same (now mutated) tile again yields the
different URL "1/0/0" — the flip accumulates across calls and the original
tile value is not preserved. -/
theorem tms_resolution_mutates_tile :
    resolveTMS tpl ⟨0, 0, 1⟩ = ("1/0/1", ⟨0, 1, 1⟩) ∧
    resolveTMS tpl (resolveTMS tpl ⟨0, 0, 1⟩).2 = ("1/0/0", ⟨0, 0, 1⟩) ∧
    (resolveTMS tpl ⟨0, 0, 1⟩).1 ≠ (resolveTMS tpl (resolveTMS tpl ⟨0, 0, 1⟩).2).1 ∧
    (resolveTMS tpl ⟨0, 0, 1⟩).2 ≠ (⟨0, 0, 1⟩ : Tile) := by
  decide

/-- C2: a tile whose on-disk path already exists short-circuits — the
worker performs no network request, no sleep, no write and no progress
update, and returns `(tile, None, True)`; consequently a run over a fully
downloaded directory produces exactly these outcomes for every tile and the
aggregator counts every tile as already present. -/
theorem already_present_short_circuit (a : Args) (nw : Nat) (oT : Tile → Oracle)
    (tiles : List Tile)
    (h : ∀ t ∈ tiles, (oT t).isfile (pathOf a t) = true) :
    runAll a nw oT tiles
        = tiles.map (fun t => (⟨t, none, true⟩, ⟨[dirOf a t], [], [], [], 0⟩))
      ∧ (aggregate ((runAll a nw oT tiles).map Prod.fst)).1 = tiles.length := by
  have hrun : runAll a nw oT tiles
      = tiles.map (fun t => (⟨t, none, true⟩, ⟨[dirOf a t], [], [], [], 0⟩)) := by
    refine List.map_congr_left (fun t ht => ?_)
    simp [worker, h t ht]
  refine ⟨hrun, ?_⟩
  rw [hrun, aggregate_spec, List.map_map]
  simp only [Function.comp]
  rw [List.countP_eq_length.mpr]
  · exact List.length_map _ _
  · intro oc hoc
    rcases List.mem_map.mp hoc with ⟨t, _, rfl⟩
    rfl

/-- Witness for C2 at a concrete one-tile run over an already-populated
directory. -/
theorem already_present_short_circuit_witness :
    (∀ t ∈ ([tile0] : List Tile), oraclePresent.isfile (pathOf argsXYZ t) = true) ∧
    (aggregate ((runAll argsXYZ argsXYZ.rate (fun _ => oraclePresent) [tile0]).map Prod.fst)).1
      = ([tile0] : List Tile).length :=
  ⟨by decide,
   (already_present_short_circuit argsXYZ argsXYZ.rate (fun _ => oraclePresent) [tile0]
      (by decide)).2⟩

/-- The three per-tile error conditions enumerated by the claim, decided by
the configuration and the task's world: unsupported service type, transport
failure (every fetch fails), decode failure (every payload fails to
decode); the tile is not already present, so the task actually reaches the
failing step. -/
def perTileError (a : Args) (o : Oracle) (t : Tile) : Prop :=
  o.isfile (pathOf a t) = false ∧
  ((a.type' ≠ "XYZ" ∧ a.type' ≠ "TMS" ∧ a.type' ≠ "WMS")
    ∨ (∀ u, o.fetch u = none)
    ∨ (∀ p, o.decodeOk p = false))

/-- C3: each of the enumerated per-tile errors is converted by the worker
into a Failed outcome (`ok = false`) rather than an exception, and the
process result is independent of the per-tile worlds: the run succeeds
exactly when the startup creation of the output directory succeeded
(download.py line 42, the only uncaught step). -/
theorem per_tile_errors_contained (a : Args) (nw : Nat) (o : Oracle) (t : Tile)
    (mk : Bool) (oT : Tile → Oracle) (tiles : List Tile)
    (h : perTileError a o t) :
    (worker a nw o t).1.ok = false ∧ runSucceeds mk a nw oT tiles = mk := by
  constructor
  · obtain ⟨hf, hcase⟩ := h
    unfold worker
    rcases hcase with ⟨hx, ht, hw⟩ | hfetch | hdec
    · simp [hf, serviceResolve, hx, ht, hw]
    · cases hres : serviceResolve a o t with
      | none => simp [hf, hres]
      | some p => simp [hf, hres, hfetch p.2]
    · cases hres : serviceResolve a o t with
      | none => simp [hf, hres]
      | some p =>
        cases hfu : o.fetch p.2 with
        | none => simp [hf, hres, hfu]
        | some pay => simp [hf, hres, hfu, hdec pay]
  · cases mk <;> simp [runSucceeds, mainRun]

/-- Witness for C3: an unsupported service type on a fresh directory yields
a Failed outcome. -/
theorem per_tile_errors_contained_witness :
    perTileError argsBad oracleFresh tile0 ∧
    (worker argsBad argsBad.rate oracleFresh tile0).1.ok = false :=
  ⟨⟨rfl, Or.inl (by decide)⟩,
   (per_tile_errors_contained argsBad argsBad.rate oracleFresh tile0 true
      (fun _ => oracleFresh) [tile0] ⟨rfl, Or.inl (by decide)⟩).1⟩

/-- C4: when the fetched payload fails to decode (or to re-encode), the
worker writes no file at all — in particular no partial file at the tile's
output path; the write only happens on the branch where the decode
succeeded. -/
theorem decode_failure_no_write (a : Args) (nw : Nat) (o : Oracle) (t : Tile)
    (h : ∀ p, o.decodeOk p = false) :
    (worker a nw o t).2.writes = [] := by
  unfold worker
  cases hf : o.isfile (pathOf a t) with
  | true => simp [hf]
  | false =>
    cases hres : serviceResolve a o t with
    | none => simp [hf, hres]
    | some p =>
      cases hfu : o.fetch p.2 with
      | none => simp [hf, hres, hfu]
      | some pay => simp [hf, hres, hfu, h pay]

/-- Witness for C4: a world where every payload fails to decode leaves the
write log empty. -/
theorem decode_failure_no_write_witness :
    (∀ p, oracleBadImage.decodeOk p = false) ∧
    (worker argsXYZ argsXYZ.rate oracleBadImage tile0).2.writes = [] :=
  ⟨fun _ => rfl,
   decode_failure_no_write argsXYZ argsXYZ.rate oracleBadImage tile0 (fun _ => rfl)⟩

/-- C5 counterexample: the claim places the start timestamp at the moment
the HTTP GET is issued, but the code takes `tick` at worker entry
(line 54).  In a world where the task entered at 0, issued its GET at 1/2
and finished at 6/5, the fetch-to-end elapsed time 7/10 is under the 1 s
per-worker interval — so the claim mandates a sleep — yet the worker, which
measures 6/5 from entry, sleeps nothing. -/
theorem pacing_start_at_entry_cex :
    oracleSlow.tEntry ≤ oracleSlow.tGet ∧ oracleSlow.tGet ≤ oracleSlow.tEnd ∧
    (worker argsXYZ argsXYZ.rate oracleSlow tile0).1.ok = true ∧
    (worker argsXYZ argsXYZ.rate oracleSlow tile0).1.url ≠ none ∧
    oracleSlow.tEnd - oracleSlow.tGet < (argsXYZ.rate : ℚ) / (argsXYZ.rate : ℚ) ∧
    (worker argsXYZ argsXYZ.rate oracleSlow tile0).2.sleeps = [] := by
  refine ⟨by norm_num [oracleSlow, oracleFresh], by norm_num [oracleSlow, oracleFresh],
    by decide, by decide, by norm_num [oracleSlow, oracleFresh, argsXYZ], ?_⟩
  norm_num [worker, serviceResolve, argsXYZ, oracleSlow, oracleFresh, pathOf]

/-- C5 amended: for a tile that is fetched and saved successfully, with the
worker pool sized to the configured rate, the worker sleeps exactly
`1 − elapsed` if and only if `elapsed` is under the 1-second per-worker
interval, where `elapsed` is measured from **worker entry** (line 54's
`tick`, taken before the existence check and URL resolution), not from the
moment the GET is issued. -/
theorem pacing_measured_from_worker_entry (a : Args) (o : Oracle) (t : Tile)
    (hr : 0 < a.rate)
    (hok : (worker a a.rate o t).1.ok = true)
    (hurl : (worker a a.rate o t).1.url ≠ none) :
    (worker a a.rate o t).2.sleeps
      = if o.tEnd - o.tEntry < 1 then [1 - (o.tEnd - o.tEntry)] else [] := by
  have hrq : ((a.rate : ℚ)) ≠ 0 := Nat.cast_ne_zero.mpr hr.ne'
  have hdiv : (a.rate : ℚ) / (a.rate : ℚ) = 1 := div_self hrq
  revert hok hurl
  unfold worker
  cases hf : o.isfile (pathOf a t) with
  | true => intro _ hurl; simp [hf] at hurl
  | false =>
    cases hres : serviceResolve a o t with
    | none => intro hok _; simp [hf, hres] at hok
    | some p =>
      cases hfu : o.fetch p.2 with
      | none => intro hok _; simp [hf, hres, hfu] at hok
      | some pay =>
        cases hdec : o.decodeOk pay with
        | false => intro hok _; simp [hf, hres, hfu, hdec] at hok
        | true => intro _ _; simp [hf, hres, hfu, hdec, hdiv]

/-- Witness for the amended C5 at a concrete instantaneous task: the
elapsed time 0 is under the interval, so the worker sleeps the full
second. -/
theorem pacing_measured_from_worker_entry_witness :
    (0 < argsXYZ.rate ∧ (worker argsXYZ argsXYZ.rate oracleFresh tile0).1.ok = true ∧
      (worker argsXYZ argsXYZ.rate oracleFresh tile0).1.url ≠ none) ∧
    (worker argsXYZ argsXYZ.rate oracleFresh tile0).2.sleeps
      = if oracleFresh.tEnd - oracleFresh.tEntry < 1 then
          [1 - (oracleFresh.tEnd - oracleFresh.tEntry)]
        else [] :=
  ⟨⟨by decide, by decide, by decide⟩,
   pacing_measured_from_worker_entry argsXYZ oracleFresh tile0 (by decide) (by decide)
     (by decide)⟩

/-- C6 counterexample: the claim says the progress indicator advances for
every tile that incurred a network attempt, including failed ones.  In a
world where the server is down, the worker issues the request (the request
log is nonempty), the outcome is Failed — and the progress indicator does
not advance: `progress.update()` (line 92) sits on the success path only. -/
theorem progress_skipped_on_failed_fetch_cex :
    (worker argsXYZ argsXYZ.rate oracleDown tile0).2.requests ≠ [] ∧
    (worker argsXYZ argsXYZ.rate oracleDown tile0).1.ok = false ∧
    (worker argsXYZ argsXYZ.rate oracleDown tile0).2.progress = 0 := by
  decide

/-- C6 amended: the progress indicator is advanced exactly once for every
tile whose fetch *and* save succeeded (outcome Fetched: ok with a recorded
URL), and is never advanced for AlreadyPresent, unknown-type, or failed
tiles. -/
theorem progress_only_on_successful_fetch (a : Args) (nw : Nat) (o : Oracle) (t : Tile) :
    (worker a nw o t).2.progress
      = if (worker a nw o t).1.ok && !(worker a nw o t).1.url.isNone then 1 else 0 := by
  unfold worker
  cases hf : o.isfile (pathOf a t) with
  | true => simp [hf]
  | false =>
    cases hres : serviceResolve a o t with
    | none => simp [hf, hres]
    | some p =>
      cases hfu : o.fetch p.2 with
      | none => simp [hf, hres, hfu]
      | some pay =>
        cases hdec : o.decodeOk pay with
        | false => simp [hf, hres, hfu, hdec]
        | true => simp [hf, hres, hfu, hdec]

/-- C7: with a service type that is none of XYZ, TMS, WMS, every tile whose
file is not already present yields the Failed outcome `(tile, None, False)`
with no network request, and the aggregation loop records one warning entry
per tile carrying the absent URL. -/
theorem unknown_service_type_failed (a : Args) (nw : Nat) (oT : Tile → Oracle)
    (tiles : List Tile)
    (hx : a.type' ≠ "XYZ") (ht : a.type' ≠ "TMS") (hw : a.type' ≠ "WMS")
    (hf : ∀ t ∈ tiles, (oT t).isfile (pathOf a t) = false) :
    runAll a nw oT tiles
        = tiles.map (fun t => (⟨t, none, false⟩, ⟨[dirOf a t], [], [], [], 0⟩))
      ∧ (aggregate ((runAll a nw oT tiles).map Prod.fst)).2
        = tiles.map (fun t => (t, (none : Option String))) := by
  have hrun : runAll a nw oT tiles
      = tiles.map (fun t => (⟨t, none, false⟩, ⟨[dirOf a t], [], [], [], 0⟩)) :=
    List.map_congr_left fun t htl => by
      simp [worker, hf t htl, serviceResolve, hx, ht, hw]
  refine ⟨hrun, ?_⟩
  rw [hrun, aggregate_spec, List.map_map]
  have hfilter :
      (tiles.map (Prod.fst ∘ fun t =>
          ((⟨t, none, false⟩ : Outcome), (⟨[dirOf a t], [], [], [], 0⟩ : Effects)))).filter
        (fun oc => !oc.ok)
      = tiles.map (Prod.fst ∘ fun t =>
          ((⟨t, none, false⟩ : Outcome), (⟨[dirOf a t], [], [], [], 0⟩ : Effects))) := by
    refine List.filter_eq_self.mpr fun oc hoc => ?_
    rcases List.mem_map.mp hoc with ⟨t, _, rfl⟩
    rfl
  rw [hfilter, List.map_map]
  rfl

/-- Witness for C7 at a one-tile run with service type "BAD". -/
theorem unknown_service_type_failed_witness :
    (argsBad.type' ≠ "XYZ" ∧ argsBad.type' ≠ "TMS" ∧ argsBad.type' ≠ "WMS" ∧
      ∀ t ∈ ([tile0] : List Tile), oracleFresh.isfile (pathOf argsBad t) = false) ∧
    (aggregate ((runAll argsBad argsBad.rate (fun _ => oracleFresh) [tile0]).map Prod.fst)).2
      = ([tile0] : List Tile).map (fun t => (t, (none : Option String))) :=
  ⟨⟨by decide, by decide, by decide, by decide⟩,
   (unknown_service_type_failed argsBad argsBad.rate (fun _ => oracleFresh) [tile0]
      (by decide) (by decide) (by decide) (by decide)).2⟩

/-- Completion-order model of `executor.map` over the worker pool
(line 96): each submitted task deposits its result into the slot of its
submission index; `ord` lists the task indices in the order the workers
happen to complete. -/
def fillSlots (res : Nat → Outcome) : List Nat → Nat → Option Outcome
  | [], _ => none
  | i :: rest, j => if j = i then some (res i) else fillSlots res rest j

theorem fillSlots_eq (res : Nat → Outcome) (ord : List Nat) (j : Nat) :
    fillSlots res ord j = if j ∈ ord then some (res j) else none := by
  induction ord with
  | nil => simp [fillSlots]
  | cons i rest ih =>
    by_cases hji : j = i
    · subst hji; simp [fillSlots]
    · simp [fillSlots, hji, ih, List.mem_cons]

/-- The orchestrator's consumption of the `executor.map` iterator: results
are read back slot by slot in submission order 0,…,n−1. -/
def consumedOutcomes (res : Nat → Outcome) (ord : List Nat) (n : Nat) :
    List (Option Outcome) :=
  (List.range n).map (fillSlots res ord)

/-- C8: for every order in which the workers complete (any permutation of
the task indices), the sequence of outcomes the orchestrator consumes is
the worker outcome of each tile, in exactly the order the tiles were
submitted. -/
theorem outcomes_in_submission_order (a : Args) (nw : Nat) (oT : Tile → Oracle)
    (tiles : List Tile) (ord : List Nat)
    (h : ord.Perm (List.range tiles.length)) :
    consumedOutcomes
        (fun i => (worker a nw (oT (tiles.getD i default)) (tiles.getD i default)).1)
        ord tiles.length
      = tiles.map (fun t => some (worker a nw (oT t) t).1) := by
  apply List.ext_getElem
  · simp [consumedOutcomes]
  · intro i h1 h2
    have hi : i < tiles.length := by simpa [consumedOutcomes] using h1
    have hmem : i ∈ ord := h.mem_iff.mpr (List.mem_range.mpr hi)
    simp only [consumedOutcomes, List.getElem_map, List.getElem_range]
    rw [fillSlots_eq, if_pos hmem, List.getD_eq_getElem tiles default hi]

/-- Three distinct tiles used in the ordering witness. -/
def tiles3 : List Tile := [⟨0, 0, 0⟩, ⟨1, 0, 1⟩, ⟨3, 1, 2⟩]

/-- Witness for C8: three tiles whose tasks complete in the order
2, 0, 1 are still consumed in submission order. -/
theorem outcomes_in_submission_order_witness :
    ([2, 0, 1] : List Nat).Perm (List.range tiles3.length) ∧
    consumedOutcomes
        (fun i => (worker argsXYZ argsXYZ.rate oracleFresh (tiles3.getD i default)).1)
        [2, 0, 1] tiles3.length
      = tiles3.map (fun t => some (worker argsXYZ argsXYZ.rate oracleFresh t).1) :=
  ⟨by decide,
   outcomes_in_submission_order argsXYZ argsXYZ.rate (fun _ => oracleFresh) tiles3 [2, 0, 1]
     (by decide)⟩

/-- C9 counterexample: a one-tile run on a fresh directory that fetches its
tile successfully ends with an already-present count of zero, and the
orchestrator emits no summary line at all — the Notice of lines 102-103 is
guarded by `if already_dl:`, so the claim that the summary is emitted on
every run, including one whose count is zero, fails. -/
theorem no_summary_when_none_already_present_cex :
    (aggregate ((runAll argsXYZ argsXYZ.rate (fun _ => oracleFresh) [tile0]).map Prod.fst)).1
        = 0 ∧
    noticeLines
        ((aggregate
            ((runAll argsXYZ argsXYZ.rate (fun _ => oracleFresh) [tile0]).map Prod.fst)).1)
      = [] := by
  decide

/-- C9 amended: the orchestrator emits the already-present summary line if
and only if the count is nonzero; a run in which no tile was already
present emits no summary. -/
theorem summary_iff_some_already_present (already : Nat) :
    noticeLines already ≠ [] ↔ already ≠ 0 := by
  by_cases h : already = 0 <;> simp [noticeLines, h]

/-- C10 counterexample: with the empty string as URL template the worker
resolves the empty URL and attempts the request — the outcome's url slot is
`some ""`, not `None` — yet the aggregator's `not url and ok` test
(line 97) treats the empty string as falsy and counts this fetched tile as
already present, so the classification is not decided by "url is None and
ok" as the claim states. -/
theorem aggregator_counts_empty_url_cex :
    (worker argsEmptyUrl argsEmptyUrl.rate oracleFresh tile0).1.url = some "" ∧
    (worker argsEmptyUrl argsEmptyUrl.rate oracleFresh tile0).2.requests ≠ [] ∧
    (worker argsEmptyUrl argsEmptyUrl.rate oracleFresh tile0).1.ok = true ∧
    (aggregate [(worker argsEmptyUrl argsEmptyUrl.rate oracleFresh tile0).1]).1 = 1 := by
  decide

/-- C10 amended: the worker records no URL exactly when it attempted no
request, and the aggregator classifies an outcome as already present
precisely when its url slot is Python-falsy — `None` or the empty string —
and ok is true, and logs a failure exactly for the not-ok outcomes; with
any template that never formats to the empty string, falsy coincides with
`None`. -/
theorem outcome_url_encoding (a : Args) (nw : Nat) (o : Oracle) (t : Tile) :
    ((worker a nw o t).1.url = none ↔ (worker a nw o t).2.requests = []) ∧
    ∀ outs : List Outcome,
      (aggregate outs).1 = outs.countP (fun oc => pyFalsy oc.url && oc.ok) ∧
      (aggregate outs).2
        = (outs.filter (fun oc => !oc.ok)).map (fun oc => (oc.tile, oc.url)) := by
  constructor
  · unfold worker
    cases hf : o.isfile (pathOf a t) with
    | true => simp [hf]
    | false =>
      cases hres : serviceResolve a o t with
      | none => simp [hf, hres]
      | some p =>
        cases hfu : o.fetch p.2 with
        | none => simp [hf, hres, hfu]
        | some pay =>
          cases hdec : o.decodeOk pay with
          | false => simp [hf, hres, hfu, hdec]
          | true => simp [hf, hres, hfu, hdec]
  · intro outs
    rw [aggregate_spec]
    exact ⟨rfl, rfl⟩

end Robosat
